import Mathlib

/-!
Verification development for the digital-lessons streaming job-coordination
subsystem.  The definitions below are shallow embeddings of the TypeScript
sources: the in-memory stream event store (`src/lib/streaming/event-store.ts`),
the code validator (`src/lib/ai/validator.ts`), the generation pipelines
(`src/inngest/functions.ts` and the streaming variant), the lessons route retry
loop, the SSE stream route connection, and the client stream-consumer hook.
JavaScript `Map` objects are modelled as association lists keyed by lesson id
(insertion-ordered, like `Map`), `Set` iteration as insertion-ordered lists,
string truthiness (`if (s)`) as a non-empty-string test, `setTimeout`-based
eviction as a pending-eviction queue fired by an explicit time-advance step,
and subscriber callbacks as behaviours returning `Except String Unit` so that
a thrown exception is observable.
-/

/-- The discriminants of the `StreamEvent` union (`event-store.ts` line 12 and
the client hook, which additionally knows `code-update`). -/
inductive EventType
  | status
  | codeChunk
  | codeUpdate
  | complete
  | error
deriving DecidableEq, Repr

/-- `StreamEvent` from `event-store.ts` lines 11-19: a type tag plus optional
payload fields and a timestamp. -/
structure StreamEvent where
  type : EventType
  lessonId : String
  code : Option String := none
  status : Option String := none
  message : Option String := none
  error : Option String := none
  timestamp : Nat := 0
deriving DecidableEq, Repr

/-- Association-list lookup, modelling `Map.get`. -/
def alistGet {α : Type} (k : String) : List (String × α) → Option α
  | [] => none
  | (k2, v) :: t => if k2 = k then some v else alistGet k t

/-- Association-list update, modelling `Map.set` (an existing key keeps its
insertion position, a new key is appended, as in a JavaScript `Map`). -/
def alistSet {α : Type} (k : String) (v : α) : List (String × α) → List (String × α)
  | [] => [(k, v)]
  | (k2, v2) :: t => if k2 = k then (k, v) :: t else (k2, v2) :: alistSet k v t

/-- Association-list removal, modelling `Map.delete`. -/
def alistRemove {α : Type} (k : String) : List (String × α) → List (String × α)
  | [] => []
  | (k2, v) :: t => if k2 = k then alistRemove k t else (k2, v) :: alistRemove k t

/-- JavaScript truthiness of an optional string: `undefined` and `""` are
falsy, every other string is truthy. -/
def optTruthy : Option String → Bool
  | some s => s ≠ ""
  | none => false

/-- The state of the `StreamEventStore` class (`event-store.ts` lines 21-23):
per-lesson listener sets (insertion-ordered, listeners named by numeric ids)
and the per-lesson accumulated-code cache.  `pendingEvictions` models the
`setTimeout` cleanups scheduled by `emit` on a `complete` event: pairs of a
lesson id and the absolute time at which the cleanup fires. -/
structure StreamEventStore where
  listeners : List (String × List Nat) := []
  codeCache : List (String × String) := []
  pendingEvictions : List (String × Nat) := []
deriving DecidableEq, Repr

/-- The empty store, as constructed at module load (`event-store.ts` line 100). -/
def emptyStore : StreamEventStore := {}

/-- `getCode` (`event-store.ts` lines 87-89): `this.codeCache.get(lessonId) || ''`. -/
def StreamEventStore.getCode (s : StreamEventStore) (lessonId : String) : String :=
  (alistGet lessonId s.codeCache).getD ""

/-- The listener list currently registered for a lesson id, in registration
order (a JavaScript `Set` iterates in insertion order). -/
def StreamEventStore.subscribersOf (s : StreamEventStore) (lessonId : String) : List Nat :=
  (alistGet lessonId s.listeners).getD []

/-- `subscribe` (`event-store.ts` lines 28-51): register the listener, then, if
the cached code for the lesson is truthy, synchronously invoke the new callback
once with a synthetic `code-chunk` event carrying the full cache.  The returned
`Option StreamEvent` is that single synchronous replay invocation (`none` when
the callback is not invoked). -/
def StreamEventStore.subscribe (s : StreamEventStore) (lessonId : String)
    (listener : Nat) (now : Nat) : StreamEventStore × Option StreamEvent :=
  let ls := (alistGet lessonId s.listeners).getD []
  let s1 := { s with listeners := alistSet lessonId (ls ++ [listener]) s.listeners }
  let cachedCode := (alistGet lessonId s.codeCache).getD ""
  if cachedCode = "" then (s1, none)
  else (s1, some { type := .codeChunk, lessonId := lessonId, code := some cachedCode,
                   timestamp := now })

/-- The state transformation performed by `emit` (`event-store.ts` lines 56-82):
append a truthy `code-chunk` payload to the lesson's cache, and on a `complete`
event schedule eviction of both the cache and the listener set 1000 ms later.
(Note: the source schedules cleanup only for `complete`, not for `error`.) -/
def StreamEventStore.emitState (s : StreamEventStore) (e : StreamEvent) (now : Nat) :
    StreamEventStore :=
  let s1 :=
    if e.type = EventType.codeChunk ∧ optTruthy e.code then
      let newCache := (alistGet e.lessonId s.codeCache).getD "" ++ e.code.getD ""
      { s with codeCache := alistSet e.lessonId newCache s.codeCache }
    else s
  if e.type = EventType.complete then
    { s1 with pendingEvictions := s1.pendingEvictions ++ [(e.lessonId, now + 1000)] }
  else s1

/-- Whether a callback behaviour threw on an event. -/
def exceptThrew : Except String Unit → Bool
  | .ok _ => false
  | .error _ => true

/-- The `listeners.forEach` loop of `emit` (`event-store.ts` lines 66-72): each
callback is invoked inside its own `try`/`catch`, a caught exception being
logged (recorded as `true` in the outcome pair) so the loop continues with the
next listener.  A callback exception escaping the `catch` would surface as an
`Except.error` of the whole loop. -/
def deliverAll (beta : Nat → StreamEvent → Except String Unit) (e : StreamEvent) :
    List Nat → Except String (List (Nat × Bool))
  | [] => .ok []
  | l :: rest => do
      let outcome := match beta l e with
        | .ok _ => (l, false)
        | .error _ => (l, true)
      let others ← deliverAll beta e rest
      return outcome :: others

/-- `emit` (`event-store.ts` lines 56-82): cache the chunk, deliver the event to
every listener registered for the event's lesson id with per-listener
`try`/`catch`, then schedule cleanup on `complete`.  The result carries the new
store state and the list of delivery attempts `(listener, threw?)`; an
`Except.error` result would mean `emit` propagated a callback exception. -/
def StreamEventStore.emit (s : StreamEventStore) (e : StreamEvent) (now : Nat)
    (beta : Nat → StreamEvent → Except String Unit) :
    Except String (StreamEventStore × List (Nat × Bool)) := do
  let deliveries ← deliverAll beta e ((alistGet e.lessonId s.listeners).getD [])
  return (s.emitState e now, deliveries)

/-- Fire every pending eviction whose due time has been reached: the scheduled
`setTimeout` bodies (`event-store.ts` lines 77-80) delete both the listener set
and the code cache of the lesson id. -/
def StreamEventStore.advanceTime (s : StreamEventStore) (now : Nat) : StreamEventStore :=
  let due := s.pendingEvictions.filter (fun p => p.2 ≤ now)
  { listeners := due.foldl (fun m p => alistRemove p.1 m) s.listeners,
    codeCache := due.foldl (fun m p => alistRemove p.1 m) s.codeCache,
    pendingEvictions := s.pendingEvictions.filter (fun p => ¬ p.2 ≤ now) }

/-- `clearCache` (`event-store.ts` lines 94-97). -/
def StreamEventStore.clearCache (s : StreamEventStore) (lessonId : String) : StreamEventStore :=
  { s with codeCache := alistRemove lessonId s.codeCache,
           listeners := alistRemove lessonId s.listeners }

/-- Run a sequence of `emit` calls from a given store state (delivery outcomes
discarded: they do not affect the state). -/
def runEmitsFrom (s : StreamEventStore) (evs : List StreamEvent) : StreamEventStore :=
  evs.foldl (fun st e => st.emitState e 0) s

/-- Run a sequence of `emit` calls from the empty store. -/
def runEmits (evs : List StreamEvent) : StreamEventStore :=
  runEmitsFrom emptyStore evs

/-- The ordered concatenation of the `code-chunk` payloads carried by the
events of a trace whose lesson id matches. -/
def chunkConcat (lessonId : String) : List StreamEvent → String
  | [] => ""
  | e :: t =>
      (if e.type = EventType.codeChunk ∧ e.lessonId = lessonId then e.code.getD "" else "")
        ++ chunkConcat lessonId t

/-- JavaScript `String.prototype.includes` on character lists. -/
def includesAux (needle : List Char) : List Char → Bool
  | [] => needle.isEmpty
  | c :: t => needle.isPrefixOf (c :: t) || includesAux needle t

/-- `hay.includes(sub)` of JavaScript. -/
def strIncludes (hay sub : String) : Bool :=
  includesAux sub.data hay.data

/-- Lower-case a string (for the case-insensitive `<script` pattern). -/
def lowerStr (s : String) : String :=
  String.mk (s.data.map Char.toLower)

/-- Matcher for a regex tail of the form `\s*c`: zero or more whitespace
characters followed by the target character. -/
def wsStarThenChar (target : Char) : List Char → Bool
  | [] => false
  | c :: t => if c == target then true else if c.isWhitespace then wsStarThenChar target t else false

/-- Match a literal, then hand the rest of the input to a continuation. -/
def litThen : List Char → (List Char → Bool) → List Char → Bool
  | [], k, l => k l
  | _ :: _, _, [] => false
  | c :: lt, k, d :: t => c == d && litThen lt k t

/-- `pattern.test(code)`: does the pattern match at some position? -/
def anywhere (p : List Char → Bool) : List Char → Bool
  | [] => p []
  | c :: t => p (c :: t) || anywhere p t

/-- `(code.match(/c/g) || []).length` for a single-character pattern. -/
def countChar (c : Char) (l : List Char) : Nat :=
  (l.filter (fun d => d == c)).length

/-- The regex `/<div|<main|<section|<article|<>/` from the validator. -/
def jsxAnywhere (code : String) : Bool :=
  strIncludes code "<div" || strIncludes code "<main" || strIncludes code "<section" ||
    strIncludes code "<article" || strIncludes code "<>"

/-- `ValidationResult` (`validator.ts` lines 6-11). -/
structure ValidationResult where
  isValid : Bool
  errors : List String
  warnings : List String
  code : Option String := none
deriving DecidableEq, Repr

/-- `validateTypeScriptCode` (`validator.ts` lines 16-87, the regex-based
version): required-element checks, dangerous-pattern checks, structure checks
and brace/parenthesis counting, then the result record built from the
collected error list.  Regex `\s` is modelled as `Char.isWhitespace`, and
apostrophes inside message strings are written with the `\x27` escape. -/
def validateTypeScriptCode (code : String) : ValidationResult :=
  let cs := code.data
  let e1 : List String :=
    if strIncludes code "export default" then [] else
      ["Missing default export - component must have \"export default function GeneratedLesson()\""]
  let e2 : List String :=
    if strIncludes code "import React" then [] else
      ["Missing React import - add \"import React from \x27react\x27;\""]
  let w1 : List String :=
    if strIncludes code "function GeneratedLesson" || strIncludes code "const GeneratedLesson" then []
    else ["Component should be named \"GeneratedLesson\" for consistency"]
  let securityHits : List (Bool × String) :=
    [(anywhere (litThen "eval".data (wsStarThenChar '(')) cs, "eval() is not allowed"),
     (anywhere (litThen "Function".data (wsStarThenChar '(')) cs, "Function() constructor is not allowed"),
     (strIncludes code "document.cookie", "Accessing document.cookie is not allowed"),
     (strIncludes code "localStorage.clear", "localStorage.clear() is not allowed"),
     (strIncludes code "sessionStorage.clear", "sessionStorage.clear() is not allowed"),
     (anywhere (litThen "window.location".data (wsStarThenChar '=')) cs,
       "Redirecting via window.location is not allowed"),
     (strIncludes (lowerStr code) "<script", "Script tags are not allowed"),
     (strIncludes code "dangerouslySetInnerHTML", "dangerouslySetInnerHTML is not recommended")]
  let eSec := (securityHits.filter (fun p => p.1)).map (fun p => "Security: " ++ p.2)
  let e3 : List String :=
    if strIncludes code "return" then [] else ["Component must have a return statement"]
  let w2 : List String :=
    if jsxAnywhere code then [] else ["Component should return JSX elements"]
  let e4 : List String :=
    if countChar '\x7b' cs = countChar '\x7d' cs then []
    else ["Unmatched braces - check your code syntax"]
  let e5 : List String :=
    if countChar '(' cs = countChar ')' cs then []
    else ["Unmatched parentheses - check your code syntax"]
  let e6 : List String :=
    if strIncludes code "import React" && !(strIncludes code "from") then
      ["Invalid import statement - missing \"from\""]
    else []
  let errors := e1 ++ e2 ++ eSec ++ e3 ++ e4 ++ e5 ++ e6
  let warnings := w1 ++ w2
  { isValid := errors.isEmpty, errors := errors, warnings := warnings,
    code := if errors.isEmpty then some code else none }

/-- Outcome of the external TypeScript-compiler parse attempted by
`validateSyntaxWithTypeScript` in the compiler-based validator version: either
the list of kept syntactic-diagnostic messages, or the compiler was
unavailable or threw, which triggers the manual fallback. -/
inductive TsParseOutcome
  | diagnostics (msgs : List String)
  | unavailable
deriving DecidableEq, Repr

/-- Skip until the target character, keeping it at the head of the rest. -/
def skipToChar (target : Char) : List Char → List Char
  | [] => []
  | c :: t => if c == target then c :: t else skipToChar target t

/-- The inner loop of the `/* ... */` branch of `removeStringsAndComments`:
runs while at least two characters remain (the source condition is
`i < code.length - 1`, so a final unmatched character is left unconsumed),
collecting the newlines seen inside the comment and returning the rest after
the closing `*` `/` pair. -/
def skipBlockComment : List Char → List Char × List Char
  | '*' :: '/' :: t => ([], t)
  | [] => ([], [])
  | [c] => ([], [c])
  | c :: t =>
      let (nl, rest) := skipBlockComment t
      (if c == '\n' then '\n' :: nl else nl, rest)

/-- The quoted-string branches of `removeStringsAndComments`: scan past the
content (a backslash skips the following character) and past the closing
quote, returning the rest. -/
def skipQuoted (q : Char) : List Char → List Char
  | [] => []
  | '\\' :: _ :: t => skipQuoted q t
  | ['\\'] => []
  | c :: t => if c == q then t else skipQuoted q t

/-- The template-literal branch of `removeStringsAndComments`: like
`skipQuoted` for the backquote character but preserving inner newlines. -/
def skipTemplate : List Char → List Char × List Char
  | [] => ([], [])
  | '\\' :: _ :: t => skipTemplate t
  | ['\\'] => ([], [])
  | c :: t =>
      if c == '\x60' then ([], t)
      else
        let (nl, rest) := skipTemplate t
        (if c == '\n' then '\n' :: nl else nl, rest)

/-- The main loop of `removeStringsAndComments` (`validator.ts`, compiler-based
version): fuel-indexed so each iteration consumes at least one character (the
fuel, set to the input length, can therefore never run out).  A line comment
emits a replacement newline and leaves the real newline for the next
iteration (so it is emitted twice, as in the source); string and template
contents are replaced by a single space. -/
def rsacGo : Nat → List Char → List Char
  | 0, _ => []
  | _ + 1, [] => []
  | fuel + 1, '/' :: '/' :: t => '\n' :: rsacGo fuel (skipToChar '\n' t)
  | fuel + 1, '/' :: '*' :: t =>
      let (nl, rest) := skipBlockComment t
      nl ++ rsacGo fuel rest
  | fuel + 1, '"' :: t => ' ' :: rsacGo fuel (skipQuoted '"' t)
  | fuel + 1, '\x27' :: t => ' ' :: rsacGo fuel (skipQuoted '\x27' t)
  | fuel + 1, '\x60' :: t =>
      let (nl, rest) := skipTemplate t
      ' ' :: (nl ++ rsacGo fuel rest)
  | fuel + 1, c :: t => c :: rsacGo fuel t

/-- `removeStringsAndComments` (`validator.ts`, compiler-based version). -/
def removeStringsAndComments (cs : List Char) : List Char :=
  rsacGo cs.length cs

/-- One bracket-matching pass of `validateSyntaxManual`: returns the line of
the first unmatched closing bracket (the source then returns early), or the
stack of open-bracket lines remaining at the end. -/
def scanPairs (openC closeC : Char) : List Char → Nat → List Nat → Except Nat (List Nat)
  | [], _, stack => .ok stack
  | c :: t, lineNum, stack =>
      let ln := if c == '\n' then lineNum + 1 else lineNum
      if c == openC then scanPairs openC closeC t ln (ln :: stack)
      else if c == closeC then
        match stack with
        | [] => .error ln
        | _ :: rest => scanPairs openC closeC t ln rest
      else scanPairs openC closeC t ln stack

/-- `validateSyntaxManual` (`validator.ts`, compiler-based version): the
brace pass, then (unless it returned early) the parenthesis pass, both over
the string- and comment-stripped code. -/
def validateSyntaxManual (cs : List Char) : List String :=
  let cws := removeStringsAndComments cs
  match scanPairs '\x7b' '\x7d' cws 1 [] with
  | .error n => ["Unmatched closing brace at line " ++ toString n]
  | .ok braceStack =>
      let braceErr : List String :=
        match braceStack with
        | [] => []
        | top :: _ => ["Unmatched opening brace at line " ++ toString top]
      match scanPairs '(' ')' cws 1 [] with
      | .error n => braceErr ++ ["Unmatched closing parenthesis at line " ++ toString n]
      | .ok parenStack =>
          braceErr ++
            (match parenStack with
             | [] => []
             | top :: _ => ["Unmatched opening parenthesis at line " ++ toString top])

/-- `validateSyntaxWithTypeScript` (`validator.ts`, compiler-based version):
each kept compiler diagnostic is reported prefixed `TypeScript: `; if the
compiler is unavailable or throws, the manual fallback runs instead (that
fallback is total, so the function itself never throws). -/
def validateSyntaxWithTypeScript (ts : TsParseOutcome) (code : String) : List String :=
  match ts with
  | .diagnostics msgs => msgs.map (fun m => "TypeScript: " ++ m)
  | .unavailable => validateSyntaxManual code.data

/-- `validateTypeScriptCode` (`validator.ts` lines 104-164, the compiler-based
version), parameterised by the external compiler outcome: syntax errors first,
then the semantic checks, with the dangerous patterns tested against the
string- and comment-stripped code. -/
def validateTypeScriptCode2 (ts : TsParseOutcome) (code : String) : ValidationResult :=
  let syntaxErrors := validateSyntaxWithTypeScript ts code
  let e1 : List String :=
    if strIncludes code "export default" then [] else
      ["Missing default export - component must have \"export default function GeneratedLesson()\""]
  let e2 : List String :=
    if strIncludes code "import React" then [] else
      ["Missing React import - add \"import React from \x27react\x27;\""]
  let w1 : List String :=
    if strIncludes code "function GeneratedLesson" || strIncludes code "const GeneratedLesson" then []
    else ["Component should be named \"GeneratedLesson\" for consistency"]
  let cws := removeStringsAndComments code.data
  let securityHits : List (Bool × String) :=
    [(anywhere (litThen "eval".data (wsStarThenChar '(')) cws, "eval() is not allowed"),
     (anywhere (litThen "Function".data (wsStarThenChar '(')) cws, "Function() constructor is not allowed"),
     (includesAux "document.cookie".data cws, "Accessing document.cookie is not allowed"),
     (includesAux "localStorage.clear".data cws, "localStorage.clear() is not allowed"),
     (includesAux "sessionStorage.clear".data cws, "sessionStorage.clear() is not allowed"),
     (anywhere (litThen "window.location".data (wsStarThenChar '=')) cws,
       "Redirecting via window.location is not allowed"),
     (includesAux "<script".data (cws.map Char.toLower), "Script tags are not allowed"),
     (includesAux "dangerouslySetInnerHTML".data cws, "dangerouslySetInnerHTML is not recommended")]
  let eSec := (securityHits.filter (fun p => p.1)).map (fun p => "Security: " ++ p.2)
  let e3 : List String :=
    if strIncludes code "return" then [] else ["Component must have a return statement"]
  let w2 : List String :=
    if jsxAnywhere code then [] else ["Component should return JSX elements"]
  let errors := syntaxErrors ++ e1 ++ e2 ++ eSec ++ e3
  let warnings := w1 ++ w2
  { isValid := errors.isEmpty, errors := errors, warnings := warnings,
    code := if errors.isEmpty then some code else none }

/-- Lesson status values (`src/lib/types.ts` via the migrations: `generating`,
`generated`, `failed`). -/
inductive LessonStatus
  | generating
  | generated
  | failed
deriving DecidableEq, Repr

/-- Token usage reported by a generation call. -/
structure Usage where
  input_tokens : Nat
  output_tokens : Nat
deriving DecidableEq, Repr

/-- The result of a generation call (`generateLesson` / `fixValidationErrors`):
code text, token usage and an optional trace id. -/
structure GenResult where
  code : String
  usage : Usage
  traceId : Option String := none
deriving DecidableEq, Repr

/-- The metadata map written into a lesson record (open key-value map in the
source; the keys actually written by the pipelines are modelled as optional
fields). -/
structure LessonMetadata where
  prompt_tokens : Option Nat := none
  completion_tokens : Option Nat := none
  trace_id : Option String := none
  auto_fix_applied : Option Bool := none
  retry_count : Option Nat := none
  generation_time_ms : Option Nat := none
  generated_images : Option (List String) := none
  image_generation_enabled : Option Bool := none
deriving DecidableEq, Repr

/-- One `updateLesson` / `updateLessonAsService` call: the partial patch
written to the durable lesson record. -/
structure LessonUpdate where
  status : LessonStatus
  error_message : Option String := none
  generated_code : Option String := none
  metadata : Option LessonMetadata := none
deriving DecidableEq, Repr

/-- `errors.join(", ")` of JavaScript. -/
def joinComma (xs : List String) : String :=
  String.intercalate ", " xs

/-- Outcomes of the external calls made by `generateLessonFunction`
(`src/inngest/functions.ts`): the Claude generation step and the auto-fix
regeneration step; each may throw. -/
structure PipelineOutcomes where
  gen : Except String GenResult
  fix : Except String GenResult

/-- The common tail of `generateLessonFunction` after the validation branch
(`functions.ts` lines 108-146): the `if (!finalCode)` guard (JavaScript
truthiness, so `undefined` and `""` both fail it, writing `failed` in the
branch and again in the top-level catch before rethrowing), then the
`save-lesson` write of `status=generated` with the summed usage metadata. -/
def saveTail (result fixResult : GenResult) (autoFixApplied : Bool)
    (finalCode : Option String) : List LessonUpdate × Except String Unit :=
  if optTruthy finalCode then
    ([{ status := .generated,
        generated_code := finalCode,
        metadata := some
          { prompt_tokens := some (result.usage.input_tokens +
              (if autoFixApplied then fixResult.usage.input_tokens else 0)),
            completion_tokens := some (result.usage.output_tokens +
              (if autoFixApplied then fixResult.usage.output_tokens else 0)),
            trace_id := result.traceId,
            auto_fix_applied := some autoFixApplied } }], .ok ())
  else
    ([{ status := .failed, error_message := some "No valid code generated" },
      { status := .failed, error_message := some "No valid code generated" }],
     .error "No valid code generated")

/-- A single run of `generateLessonFunction` (`src/inngest/functions.ts`),
with the two external generation calls given by `o` and the validator by `V`.
The result is the ordered list of lesson-record writes performed by the run
together with its outcome (`Except.error` when the run rethrows).  Branches:
generation failure reaches the top-level catch (one `failed` write, rethrow);
a validation failure with a non-empty error list triggers the auto-fix branch,
whose own failure paths write `failed` in the branch, again in the inner
catch, and again in the top-level catch before rethrowing; otherwise the tail
`saveTail` runs. -/
def runGenerateLesson (V : String → ValidationResult) (o : PipelineOutcomes) :
    List LessonUpdate × Except String Unit :=
  match o.gen with
  | .error msg =>
      ([{ status := .failed, error_message := some msg }], .error msg)
  | .ok result =>
      let validation := V result.code
      if !validation.isValid && !validation.errors.isEmpty then
        match o.fix with
        | .error fixMsg =>
            let errorMessage := "Validation failed: " ++ joinComma validation.errors ++
              ". Auto-fix attempt failed: " ++ fixMsg
            ([{ status := .failed, error_message := some errorMessage },
              { status := .failed, error_message := some errorMessage }],
             .error errorMessage)
        | .ok fixedResult =>
            let revalidation := V fixedResult.code
            if revalidation.isValid && optTruthy revalidation.code then
              saveTail result fixedResult true revalidation.code
            else
              let msg1 := "Validation failed after auto-fix attempt: " ++
                joinComma revalidation.errors
              let w1 : LessonUpdate :=
                { status := .failed, error_message := some msg1,
                  metadata := some
                    { prompt_tokens := some (result.usage.input_tokens +
                        fixedResult.usage.input_tokens),
                      completion_tokens := some (result.usage.output_tokens +
                        fixedResult.usage.output_tokens),
                      trace_id := result.traceId,
                      auto_fix_applied := some false } }
              let msg2 := "Validation failed: " ++ joinComma validation.errors ++
                ". Auto-fix attempt failed: " ++ msg1
              ([w1,
                { status := .failed, error_message := some msg2 },
                { status := .failed, error_message := some msg2 }],
               .error msg2)
      else
        saveTail result result false validation.code

/-- Outcomes of the external calls made by the streaming pipeline variant
(`generateLessonFunction` of the OpenAI streaming file): image generation
(whose failure is swallowed inside its own step), the streaming generation
call, the non-streaming fallback used when streaming throws, the auto-fix
call, and the effects of the `score-lesson-quality` step (Langfuse calls,
not wrapped in a `try`, so a throw reaches the top-level catch).  The
`evaluate-with-llm-judge` step wraps its body in `try`/`catch` and so never
throws; it performs no record writes and is omitted. -/
structure StreamingOutcomes where
  generateImages : Bool
  images : Except String (List String)
  streamGen : Except String GenResult
  fallbackGen : Except String GenResult
  fix : Except String GenResult
  scoring : Except String Unit

/-- The tail of the streaming pipeline after the validation branch: the
`if (!finalCode)` guard, the `save-lesson` write (which additionally records
the generated image list and the image flag in metadata), and then the
`score-lesson-quality` step, which runs only when the original result carries
a truthy trace id and whose uncaught throw makes the top-level catch write
`failed` after the already-performed `generated` save. -/
def saveTailStreaming (result fixResult : GenResult) (autoFixApplied : Bool)
    (finalCode : Option String) (generatedImages : List String)
    (generateImages : Bool) (scoring : Except String Unit) :
    List LessonUpdate × Except String Unit :=
  if optTruthy finalCode then
    let saveW : LessonUpdate :=
      { status := .generated,
        generated_code := finalCode,
        metadata := some
          { prompt_tokens := some (result.usage.input_tokens +
              (if autoFixApplied then fixResult.usage.input_tokens else 0)),
            completion_tokens := some (result.usage.output_tokens +
              (if autoFixApplied then fixResult.usage.output_tokens else 0)),
            trace_id := result.traceId,
            auto_fix_applied := some autoFixApplied,
            generated_images := some generatedImages,
            image_generation_enabled := some generateImages } }
    if optTruthy result.traceId then
      match scoring with
      | .ok _ => ([saveW], .ok ())
      | .error msg => ([saveW, { status := .failed, error_message := some msg }], .error msg)
    else ([saveW], .ok ())
  else
    ([{ status := .failed, error_message := some "No valid code generated" },
      { status := .failed, error_message := some "No valid code generated" }],
     .error "No valid code generated")

/-- A single run of the streaming `generateLessonFunction` (the OpenAI
streaming Inngest function): image generation with swallowed failure, the
streaming generation step with its in-step fallback, then the same
validation / auto-fix / save structure as the non-streaming function, then
the scoring step. -/
def runGenerateLessonStreaming (V : String → ValidationResult) (o : StreamingOutcomes) :
    List LessonUpdate × Except String Unit :=
  let generatedImages : List String :=
    if o.generateImages then
      match o.images with
      | .ok l => l
      | .error _ => []
    else []
  match (match o.streamGen with
         | .ok r => Except.ok r
         | .error _ => o.fallbackGen) with
  | .error msg =>
      ([{ status := .failed, error_message := some msg }], .error msg)
  | .ok result =>
      let validation := V result.code
      if !validation.isValid && !validation.errors.isEmpty then
        match o.fix with
        | .error fixMsg =>
            let errorMessage := "Validation failed: " ++ joinComma validation.errors ++
              ". Auto-fix attempt failed: " ++ fixMsg
            ([{ status := .failed, error_message := some errorMessage },
              { status := .failed, error_message := some errorMessage }],
             .error errorMessage)
        | .ok fixedResult =>
            let revalidation := V fixedResult.code
            if revalidation.isValid && optTruthy revalidation.code then
              saveTailStreaming result fixedResult true revalidation.code
                generatedImages o.generateImages o.scoring
            else
              let msg1 := "Validation failed after auto-fix attempt: " ++
                joinComma revalidation.errors
              let w1 : LessonUpdate :=
                { status := .failed, error_message := some msg1,
                  metadata := some
                    { prompt_tokens := some (result.usage.input_tokens +
                        fixedResult.usage.input_tokens),
                      completion_tokens := some (result.usage.output_tokens +
                        fixedResult.usage.output_tokens),
                      trace_id := result.traceId,
                      auto_fix_applied := some false } }
              let msg2 := "Validation failed: " ++ joinComma validation.errors ++
                ". Auto-fix attempt failed: " ++ msg1
              ([w1,
                { status := .failed, error_message := some msg2 },
                { status := .failed, error_message := some msg2 }],
               .error msg2)
      else
        saveTailStreaming result result false validation.code
          generatedImages o.generateImages o.scoring

/-- The generation-with-retry loop of the lessons route `POST` handler
(`while (retryCount < maxRetries && !generatedCode)` with `maxRetries = 3`).
`gen n` is the outcome of the n-th `generateLesson` call, indexed by the
`retryCount` current when the call is made (each failed iteration increases
`retryCount`, so indices are distinct); `elapsed` stands for the
`Date.now() - startTime` value stored as `generation_time_ms`.  On a thrown
generation error the catch increments `retryCount` and, at the cap, writes
`failed` (with `retry_count` and timing metadata) and rethrows.  On a
validation failure the loop increments `retryCount` inside the `try` and, at
the cap, throws - which the same catch then handles, incrementing
`retryCount` once more before the terminal write, as in the source.  The
fuel argument only bounds the recursion; from the entry point
`runLessonPOST` (fuel 3, `retryCount` 0) it can never run out, since every
recursive call increases `retryCount` by one. -/
def retryLoop (V : String → ValidationResult) (gen : Nat → Except String GenResult)
    (elapsed : Nat) : Nat → Nat → List LessonUpdate × Except String Unit
  | 0, _ => ([], .ok ())
  | fuel + 1, retryCount =>
      if retryCount < 3 then
        match gen retryCount with
        | .error msg =>
            let rc2 := retryCount + 1
            if 3 ≤ rc2 then
              ([{ status := .failed, error_message := some msg,
                  metadata := some { retry_count := some rc2,
                                     generation_time_ms := some elapsed } }],
               .error ("Failed to generate lesson after 3 attempts: " ++ msg))
            else retryLoop V gen elapsed fuel rc2
        | .ok result =>
            let validation := V result.code
            if validation.isValid && optTruthy validation.code then
              ([{ status := .generated,
                  generated_code := validation.code,
                  metadata := some
                    { prompt_tokens := some result.usage.input_tokens,
                      completion_tokens := some result.usage.output_tokens,
                      generation_time_ms := some elapsed,
                      retry_count := some retryCount,
                      trace_id := result.traceId } }], .ok ())
            else
              let lastError := String.intercalate "; " validation.errors
              let rc2 := retryCount + 1
              if 3 ≤ rc2 then
                let thrownMsg := "Validation failed after 3 attempts: " ++ lastError
                let rc3 := rc2 + 1
                ([{ status := .failed, error_message := some thrownMsg,
                    metadata := some { retry_count := some rc3,
                                       generation_time_ms := some elapsed } }],
                 .error ("Failed to generate lesson after 3 attempts: " ++ thrownMsg))
              else retryLoop V gen elapsed fuel rc2
      else ([], .ok ())

/-- The record writes and outcome of one lessons route `POST` run after the
lesson record is created: the retry loop entered with `retryCount = 0`. -/
def runLessonPOST (V : String → ValidationResult) (gen : Nat → Except String GenResult)
    (elapsed : Nat) : List LessonUpdate × Except String Unit :=
  retryLoop V gen elapsed 3 0

/-- The durable lesson record as read by the stream route's poll fallback. -/
structure LessonRecord where
  status : LessonStatus
  generated_code : Option String := none
  error_message : Option String := none
deriving DecidableEq, Repr

/-- Render a `LessonStatus` as it appears on the wire. -/
def LessonStatus.toStr : LessonStatus → String
  | .generating => "generating"
  | .generated => "generated"
  | .failed => "failed"

/-- A serialized record flushed on the SSE connection (each JSON object
enqueued by the stream route; all payload fields optional, since the route's
three enqueue sites build different shapes). -/
structure WireEvent where
  type : EventType
  lessonId : Option String := none
  code : Option String := none
  status : Option String := none
  message : Option String := none
  error : Option String := none
  timestamp : Option Nat := none
deriving DecidableEq, Repr

/-- Serialize a broker `StreamEvent` for the wire
(`controller.enqueue(JSON.stringify(event))`). -/
def toWire (e : StreamEvent) : WireEvent :=
  { type := e.type, lessonId := some e.lessonId, code := e.code, status := e.status,
    message := e.message, error := e.error, timestamp := some e.timestamp }

/-- The per-connection state of the stream route `GET` handler: the local
`isClosed` flag of the broker-subscription callback, whether the
`ReadableStream` controller is still open, whether the DB poll interval is
still active, whether the broker subscription is still registered, whether a
delayed close (`setTimeout(..., 500)`) is pending, and the events flushed so
far. -/
structure ConnState where
  isClosed : Bool := false
  controllerOpen : Bool := true
  pollActive : Bool := true
  subscribed : Bool := true
  closePending : Bool := false
  flushed : List WireEvent := []
deriving DecidableEq, Repr

/-- Opening the connection (`start(controller)` of the stream route): fetch
the record and enqueue the initial `status` event. -/
def connOpen (rec : LessonRecord) (id : String) : ConnState :=
  { flushed := [{ type := .status, status := some rec.status.toStr,
                  message := some ("Connected to stream for lesson " ++ id) }] }

/-- The broker-subscription callback of the stream route: skip when
`isClosed`; otherwise enqueue the event and, on `complete` or `error`, set
`isClosed` and schedule the delayed controller close.  If the controller is
already closed the enqueue throws, which the callback's catch recognises as
a "closed" error: it sets `isClosed` and unsubscribes. -/
def onBrokerEvent (e : StreamEvent) (s : ConnState) : ConnState :=
  if s.isClosed then s
  else if s.controllerOpen then
    let s1 := { s with flushed := s.flushed ++ [toWire e] }
    if e.type = EventType.complete ∨ e.type = EventType.error then
      { s1 with isClosed := true, closePending := true }
    else s1
  else { s with isClosed := true, subscribed := false }

/-- One tick of the 2-second DB poll fallback of the stream route: if the
fetched record is terminal, clear the interval and enqueue a synthesized
`complete` event, then schedule the delayed close.  As in the source, this
path consults only the record status - it neither checks nor sets the
`isClosed` flag (the comment above the enqueue claims otherwise); an enqueue
failure on an already-closed controller is swallowed by the poll's catch. -/
def onPollTick (lessonId : String) (rec : LessonRecord) (now : Nat) (s : ConnState) :
    ConnState :=
  if !s.pollActive then s
  else if rec.status = LessonStatus.generated ∨ rec.status = LessonStatus.failed then
    let s1 := { s with pollActive := false }
    if s1.controllerOpen then
      { s1 with
        flushed := s1.flushed ++
          [{ type := .complete, lessonId := some lessonId,
             status := some rec.status.toStr,
             code := some (rec.generated_code.getD ""),
             error := rec.error_message,
             timestamp := some now }],
        closePending := true }
    else s1
  else s

/-- The delayed close scheduled 500 ms after a terminal flush: close the
controller and unsubscribe. -/
def onCloseTimer (s : ConnState) : ConnState :=
  if s.closePending then
    { s with controllerOpen := false, subscribed := false, closePending := false }
  else s

/-- The 30-minute hard lifetime timeout of the stream route: clear the poll,
close the controller, unsubscribe. -/
def onHardTimeout (s : ConnState) : ConnState :=
  { s with pollActive := false, controllerOpen := false, subscribed := false }

/-- Number of terminal (`complete` or `error`) events flushed on a
connection. -/
def countTerminal (ws : List WireEvent) : Nat :=
  (ws.filter (fun w => w.type = EventType.complete ∨ w.type = EventType.error)).length

/-- The state of the `useCodeStream` hook (client stream consumer): whether an
`EventSource` is currently held, the `isStreaming` and `error` state values,
the reconnect-attempt counter, and whether a reconnect `setTimeout` scheduled
by the backoff logic is pending (together with its computed delay).  The hook
stores no handle for that timer. -/
structure HookState where
  enabled : Bool := true
  connected : Bool := false
  isStreaming : Bool := false
  reconnectAttempts : Nat := 0
  pendingReconnect : Bool := false
  pendingDelay : Option Nat := none
  errorMsg : Option String := none
deriving DecidableEq, Repr

/-- The backoff delay of the hook:
`Math.min(1000 * Math.pow(2, attempt - 1), 30000)`. -/
def backoffDelay (attempt : Nat) : Nat :=
  min (1000 * 2 ^ (attempt - 1)) 30000

/-- `connect` of `useCodeStream`: a no-op when disabled or already holding a
connection, otherwise opens a new `EventSource` and sets `isStreaming`. -/
def connect (s : HookState) : HookState :=
  if !s.enabled || s.connected then s
  else { s with connected := true, isStreaming := true }

/-- `eventSource.onerror` of `useCodeStream` (transport failure): close and
drop the connection; below the attempt cap (5) increment the counter and
schedule a reconnect after the backoff delay, otherwise set the terminal
error message. -/
def onTransportError (s : HookState) : HookState :=
  let s1 := { s with connected := false, isStreaming := false }
  if s1.reconnectAttempts < 5 then
    let attempts := s1.reconnectAttempts + 1
    { s1 with reconnectAttempts := attempts, pendingReconnect := true,
              pendingDelay := some (backoffDelay attempts) }
  else { s1 with errorMsg := some "Failed to maintain connection. Please refresh the page." }

/-- `disconnect` of `useCodeStream` (intentional close during teardown): if a
connection is held, close and drop it.  As in the source, the pending
reconnect timer is untouched - `disconnect` has no handle to cancel it. -/
def disconnect (s : HookState) : HookState :=
  if s.connected then { s with connected := false, isStreaming := false }
  else s

/-- The scheduled reconnect `setTimeout(() => connect(), backoffDelay)`
firing. -/
def fireReconnectTimer (s : HookState) : HookState :=
  if s.pendingReconnect then
    connect { s with pendingReconnect := false, pendingDelay := none }
  else s

theorem alistGet_set_self {α : Type} (k : String) (v : α) (m : List (String × α)) :
    alistGet k (alistSet k v m) = some v := by
  induction m with
  | nil => simp [alistSet, alistGet]
  | cons p t ih =>
      obtain ⟨k2, v2⟩ := p
      by_cases h : k2 = k
      · simp [alistSet, alistGet, h]
      · simp [alistSet, alistGet, h, ih]

theorem alistGet_set_of_ne {α : Type} {k k2 : String} (v : α) (m : List (String × α))
    (h : k2 ≠ k) : alistGet k2 (alistSet k v m) = alistGet k2 m := by
  have hne : k ≠ k2 := fun hh => h (Eq.symm hh)
  induction m with
  | nil => simp [alistSet, alistGet, hne]
  | cons p t ih =>
      obtain ⟨k3, v3⟩ := p
      by_cases h3 : k3 = k
      · subst h3
        simp [alistSet, alistGet, hne]
      · simp [alistSet, alistGet, h3, ih]

theorem alistGet_remove_self {α : Type} (k : String) (m : List (String × α)) :
    alistGet k (alistRemove k m) = none := by
  induction m with
  | nil => simp [alistRemove, alistGet]
  | cons p t ih =>
      obtain ⟨k2, v2⟩ := p
      by_cases h : k2 = k
      · simp [alistRemove, h, ih]
      · simp [alistRemove, alistGet, h, ih]

theorem alistGet_remove_none {α : Type} (k k2 : String) (m : List (String × α))
    (h : alistGet k m = none) : alistGet k (alistRemove k2 m) = none := by
  induction m with
  | nil => simp [alistRemove, alistGet]
  | cons p t ih =>
      obtain ⟨k3, v3⟩ := p
      by_cases h3 : k3 = k
      · simp [alistGet, h3] at h
      · by_cases h2 : k3 = k2
        · simp [alistGet, h3] at h
          simp [alistRemove, h2, ih h]
        · simp [alistGet, h3] at h
          simp [alistRemove, alistGet, h2, h3, ih h]

theorem alistGet_removeFold_none {α : Type} (ps : List (String × Nat))
    (m : List (String × α)) (k : String) (h : alistGet k m = none) :
    alistGet k (ps.foldl (fun acc p => alistRemove p.1 acc) m) = none := by
  induction ps generalizing m with
  | nil => simpa using h
  | cons p t ih =>
      simp only [List.foldl_cons]
      exact ih _ (alistGet_remove_none k p.1 m h)

theorem alistGet_removeFold_mem {α : Type} (ps : List (String × Nat))
    (m : List (String × α)) (k : String) (h : k ∈ ps.map Prod.fst) :
    alistGet k (ps.foldl (fun acc p => alistRemove p.1 acc) m) = none := by
  induction ps generalizing m with
  | nil => simp at h
  | cons p t ih =>
      simp only [List.foldl_cons]
      simp only [List.map_cons, List.mem_cons] at h
      rcases h with h1 | h1
      · refine alistGet_removeFold_none t _ k ?_
        rw [h1]
        exact alistGet_remove_self p.1 m
      · exact ih _ h1

theorem getCode_emitState (s : StreamEventStore) (e : StreamEvent) (now : Nat) (id : String) :
    (s.emitState e now).getCode id =
      s.getCode id ++
        (if e.type = EventType.codeChunk ∧ e.lessonId = id then e.code.getD "" else "") := by
  unfold StreamEventStore.emitState StreamEventStore.getCode
  by_cases hc : e.type = EventType.codeChunk ∧ optTruthy e.code
  · have hnotc : ¬ e.type = EventType.complete := by
      intro hcomp; rw [hcomp] at hc; exact absurd hc.1 (by simp)
    by_cases hid : e.lessonId = id
    · subst hid
      simp [hc, hnotc, alistGet_set_self]
    · have hid2 : id ≠ e.lessonId := fun hh => hid (Eq.symm hh)
      simp [hc, hnotc, alistGet_set_of_ne _ _ hid2, hid, String.append_empty]
  · have hpayload : (if e.type = EventType.codeChunk ∧ e.lessonId = id
        then e.code.getD "" else "") = "" := by
      by_cases hck : e.type = EventType.codeChunk ∧ e.lessonId = id
      · have hnt : optTruthy e.code = false := by
          cases h2 : optTruthy e.code
          · rfl
          · exact absurd ⟨hck.1, h2⟩ hc
        cases hcode : e.code with
        | none => simp [hck]
        | some c =>
            rw [hcode] at hnt
            have hcEmpty : c = "" := by
              by_contra hne
              simp [optTruthy, hne] at hnt
            simp [hck, hcode, hcEmpty]
      · simp [hck]
    rw [hpayload, String.append_empty]
    by_cases hcomp : e.type = EventType.complete <;> simp [hc, hcomp]

theorem getCode_runEmitsFrom (evs : List StreamEvent) (s : StreamEventStore) (id : String) :
    (runEmitsFrom s evs).getCode id = s.getCode id ++ chunkConcat id evs := by
  induction evs generalizing s with
  | nil => simp [runEmitsFrom, chunkConcat, String.append_empty]
  | cons e t ih =>
      show (runEmitsFrom (s.emitState e 0) t).getCode id = _
      rw [ih, getCode_emitState, chunkConcat, String.append_assoc]

theorem getCode_runEmits (evs : List StreamEvent) (id : String) :
    (runEmits evs).getCode id = chunkConcat id evs := by
  rw [runEmits, getCode_runEmitsFrom]
  have : emptyStore.getCode id = "" := rfl
  rw [this, String.empty_append]

/-- Claim C1: subscribing while the accumulated-code cache for a job id is
non-empty invokes the new callback exactly once, synchronously before
`subscribe` returns, with a `code-chunk` event whose payload is the ordered
concatenation of all `code-chunk` payloads emitted for that id so far; with
an empty cache no replay is delivered.  The trace is any sequence of `emit`
calls from the fresh store (no eviction having fired). -/
theorem c1_subscribe_replays_full_cache (evs : List StreamEvent) (id : String)
    (l now : Nat) :
    (chunkConcat id evs ≠ "" →
      ((runEmits evs).subscribe id l now).2 =
        some { type := .codeChunk, lessonId := id, code := some (chunkConcat id evs),
               timestamp := now }) ∧
    (chunkConcat id evs = "" → ((runEmits evs).subscribe id l now).2 = none) := by
  have h : (alistGet id (runEmits evs).codeCache).getD "" = chunkConcat id evs :=
    getCode_runEmits evs id
  constructor
  · intro hne
    unfold StreamEventStore.subscribe
    simp only [h]
    simp [hne]
  · intro heq
    unfold StreamEventStore.subscribe
    simp only [h]
    simp [heq]

/-- Claim C1 witness: after emitting chunks "ab" and "cd" for job "j2", a new
subscriber receives exactly one synchronous replay chunk "abcd"; on a fresh
store the subscriber receives nothing. -/
theorem c1_subscribe_replays_full_cache_witness :
    ((runEmits [{ type := .codeChunk, lessonId := "j2", code := some "ab" },
                { type := .codeChunk, lessonId := "j2", code := some "cd" }]).subscribe
        "j2" 7 99).2 =
      some { type := .codeChunk, lessonId := "j2",
             code := some (chunkConcat "j2"
               [{ type := .codeChunk, lessonId := "j2", code := some "ab" },
                { type := .codeChunk, lessonId := "j2", code := some "cd" }]),
             timestamp := 99 } ∧
    ((runEmits []).subscribe "j2" 7 99).2 = none :=
  ⟨(c1_subscribe_replays_full_cache
      [{ type := .codeChunk, lessonId := "j2", code := some "ab" },
       { type := .codeChunk, lessonId := "j2", code := some "cd" }] "j2" 7 99).1
      (by decide),
   (c1_subscribe_replays_full_cache [] "j2" 7 99).2 (by decide)⟩

/-- Claim C2: for every finite sequence of `emit` calls across any job ids,
`getCode` (the `getAccumulated` read) returns the ordered concatenation of
exactly the `code-chunk` payloads emitted for that job id (so it is the empty
string when none were emitted); emitting an event for a different job id never
changes another id's cached code; and once the topic's scheduled eviction has
fired the cached code is the empty string. -/
theorem c2_getCode_concat :
    (∀ (evs : List StreamEvent) (id : String),
       (runEmits evs).getCode id = chunkConcat id evs) ∧
    (∀ (evs : List StreamEvent) (e : StreamEvent) (id : String), e.lessonId ≠ id →
       (runEmits (evs ++ [e])).getCode id = (runEmits evs).getCode id) ∧
    (∀ (s : StreamEventStore) (id : String) (u d : Nat),
       (id, d) ∈ s.pendingEvictions → d ≤ u → (s.advanceTime u).getCode id = "") := by
  refine ⟨getCode_runEmits, ?_, ?_⟩
  · intro evs e id hne
    have h1 : runEmits (evs ++ [e]) = (runEmits evs).emitState e 0 := by
      simp [runEmits, runEmitsFrom, List.foldl_append]
    rw [h1, getCode_emitState]
    have : (if e.type = EventType.codeChunk ∧ e.lessonId = id
        then e.code.getD "" else "") = "" := by simp [hne]
    rw [this, String.append_empty]
  · intro s id u d hmem hle
    have hdue : (id, d) ∈ s.pendingEvictions.filter (fun p => p.2 ≤ u) := by
      rw [List.mem_filter]
      exact ⟨hmem, by simpa using hle⟩
    have hk : id ∈ (s.pendingEvictions.filter (fun p => p.2 ≤ u)).map Prod.fst :=
      List.mem_map_of_mem Prod.fst hdue
    show (alistGet id ((s.pendingEvictions.filter (fun p => p.2 ≤ u)).foldl
        (fun m p => alistRemove p.1 m) s.codeCache)).getD "" = ""
    rw [alistGet_removeFold_mem _ _ _ hk]
    rfl

/-- Claim C2 witness: a concrete trace with interleaved jobs, a cross-job
no-change instance, and an eviction instance. -/
theorem c2_getCode_concat_witness :
    ((runEmits [{ type := .codeChunk, lessonId := "j1", code := some "ab" },
                { type := .codeChunk, lessonId := "j9", code := some "zz" },
                { type := .codeChunk, lessonId := "j1", code := some "cd" }]).getCode "j1" =
       chunkConcat "j1"
         [{ type := .codeChunk, lessonId := "j1", code := some "ab" },
          { type := .codeChunk, lessonId := "j9", code := some "zz" },
          { type := .codeChunk, lessonId := "j1", code := some "cd" }]) ∧
    ((runEmits ([{ type := .codeChunk, lessonId := "j1", code := some "ab" }] ++
        [{ type := .codeChunk, lessonId := "j9", code := some "zz" }])).getCode "j1" =
      (runEmits [{ type := .codeChunk, lessonId := "j1", code := some "ab" }]).getCode "j1") ∧
    ((StreamEventStore.advanceTime
        { listeners := [("j", [4])], codeCache := [("j", "ab")],
          pendingEvictions := [("j", 5)] } 10).getCode "j" = "") :=
  ⟨c2_getCode_concat.1 _ "j1",
   c2_getCode_concat.2.1 _ _ "j1" (by decide),
   c2_getCode_concat.2.2 _ "j" 10 5 (by decide) (by decide)⟩

/-- The `error` stream event used in the claim C5 counterexample. -/
def c5ErrorEvent : StreamEvent :=
  { type := .error, lessonId := "j", message := some "generation failed" }

/-- The `code-chunk` stream event used in the claim C5 counterexample. -/
def c5ChunkEvent : StreamEvent :=
  { type := .codeChunk, lessonId := "j", code := some "ab" }

/-- The store reached in the claim C5 counterexample: one subscriber for job
`"j"`, a cached chunk `"ab"`, then an `error` event, then far more than the
grace period elapses. -/
def c5State : StreamEventStore :=
  ((((emptyStore.subscribe "j" 0 0).1.emitState c5ChunkEvent 0).emitState
      c5ErrorEvent 0).advanceTime 999999)

/-- Claim C5 counterexample: after an `error` event and an arbitrarily long
wait, the accumulated-code cache and the subscriber set are still present
(`emit` schedules eviction only for `complete`), contradicting the claim that
an `error` event also leads to eviction after the grace period. -/
theorem c5_error_event_does_not_evict :
    c5State.getCode "j" = "ab" ∧ c5State.subscribersOf "j" = [0] := by decide

/-- Claim C5 as amended: only after a `complete` event is emitted and the
grace period has elapsed are both the accumulated-code cache and the
subscriber set for that job id removed, so `getCode` returns the empty string
and no subscribers remain registered (an `error` event schedules no
eviction). -/
theorem c5_amended_complete_evicts (s : StreamEventStore) (e : StreamEvent) (now u : Nat)
    (h1 : e.type = EventType.complete) (h2 : now + 1000 ≤ u) :
    ((s.emitState e now).advanceTime u).getCode e.lessonId = "" ∧
    ((s.emitState e now).advanceTime u).subscribersOf e.lessonId = [] := by
  have hnotchunk : ¬ (e.type = EventType.codeChunk ∧ optTruthy e.code) := by
    intro hck; rw [h1] at hck; exact absurd hck.1 (by simp)
  have hstate : s.emitState e now =
      { s with pendingEvictions := s.pendingEvictions ++ [(e.lessonId, now + 1000)] } := by
    unfold StreamEventStore.emitState
    simp [hnotchunk, h1]
  rw [hstate]
  have hmem : (e.lessonId, now + 1000) ∈
      ((s.pendingEvictions ++ [(e.lessonId, now + 1000)]).filter (fun p => p.2 ≤ u)) := by
    rw [List.mem_filter]
    exact ⟨List.mem_append_right _ (List.mem_singleton.mpr rfl), by simpa using h2⟩
  have hk : e.lessonId ∈
      ((s.pendingEvictions ++ [(e.lessonId, now + 1000)]).filter
        (fun p => p.2 ≤ u)).map Prod.fst :=
    List.mem_map_of_mem Prod.fst hmem
  simp only [StreamEventStore.advanceTime, StreamEventStore.getCode,
    StreamEventStore.subscribersOf]
  constructor
  · rw [alistGet_removeFold_mem _ _ _ hk]
    rfl
  · rw [alistGet_removeFold_mem _ _ _ hk]
    rfl

/-- Claim C5 amended witness: a concrete `complete` emission followed by the
grace period elapsing leaves an empty cache and no subscribers. -/
theorem c5_amended_complete_evicts_witness :
    ((StreamEventStore.emitState
        { listeners := [("j", [3])], codeCache := [("j", "ab")], pendingEvictions := [] }
        { type := .complete, lessonId := "j", code := some "ab" } 0).advanceTime
          2000).getCode "j" = "" ∧
    ((StreamEventStore.emitState
        { listeners := [("j", [3])], codeCache := [("j", "ab")], pendingEvictions := [] }
        { type := .complete, lessonId := "j", code := some "ab" } 0).advanceTime
          2000).subscribersOf "j" = [] :=
  c5_amended_complete_evicts
    { listeners := [("j", [3])], codeCache := [("j", "ab")], pendingEvictions := [] }
    { type := .complete, lessonId := "j", code := some "ab" } 0 2000 (by decide) (by decide)

theorem deliverAll_ok (beta : Nat → StreamEvent → Except String Unit) (e : StreamEvent)
    (ls : List Nat) :
    deliverAll beta e ls = .ok (ls.map (fun l => (l, exceptThrew (beta l e)))) := by
  induction ls with
  | nil => rfl
  | cons l t ih =>
      simp only [deliverAll, ih, List.map_cons]
      cases beta l e <;> simp [exceptThrew, Except.bind]

/-- Claim C8: `emit` delivers the event to every subscriber currently
registered for the event's job id, in registration order, each invocation
wrapped in its own catch so a throwing callback (recorded as `true` in its
outcome) never prevents delivery to later subscribers, and `emit` itself
returns normally (`Except.ok`) for every callback behaviour instead of
propagating a callback's exception. -/
theorem c8_emit_delivers_to_all (s : StreamEventStore) (e : StreamEvent) (now : Nat)
    (beta : Nat → StreamEvent → Except String Unit) :
    s.emit e now beta =
      .ok (s.emitState e now,
           (s.subscribersOf e.lessonId).map (fun l => (l, exceptThrew (beta l e)))) := by
  unfold StreamEventStore.emit StreamEventStore.subscribersOf
  rw [deliverAll_ok]
  rfl

/-- Claim C10: for both validator versions, `isValid` is true exactly when the
error list is empty, and the `code` field equals the input string when
`isValid` is true and is absent (`none`) when it is false. -/
theorem c10_validator_result_shape (code : String) :
    ((validateTypeScriptCode code).isValid =
        (validateTypeScriptCode code).errors.isEmpty ∧
      (validateTypeScriptCode code).code =
        (if (validateTypeScriptCode code).isValid then some code else none)) ∧
    (∀ ts : TsParseOutcome,
      (validateTypeScriptCode2 ts code).isValid =
          (validateTypeScriptCode2 ts code).errors.isEmpty ∧
        (validateTypeScriptCode2 ts code).code =
          (if (validateTypeScriptCode2 ts code).isValid then some code else none)) :=
  ⟨⟨rfl, rfl⟩, fun _ => ⟨rfl, rfl⟩⟩

/-- A lesson component that passes every check of the regex-based validator
(used as concrete generated output in witnesses and counterexamples). -/
def goodLessonCode : String :=
  "import React from \x27react\x27;\nexport default function GeneratedLesson() \x7b return (<div />); \x7d"

/-- Claim C6: when the first validation fails with at least one error and the
single corrective regeneration re-validates clean (with a truthy code field
equal to the fixed code), the run performs exactly one record write - the
save of `status=generated` with the fixed code, `auto_fix_applied=true`, and
prompt/completion token counts summed over both generation calls - and
returns successfully. -/
theorem c6_autofix_success (V : String → ValidationResult) (r f : GenResult)
    (h1 : (V r.code).isValid = false)
    (h2 : (V r.code).errors.isEmpty = false)
    (h3 : (V f.code).isValid = true)
    (h4 : (V f.code).code = some f.code)
    (h5 : f.code ≠ "") :
    runGenerateLesson V { gen := .ok r, fix := .ok f } =
      ([{ status := .generated, generated_code := some f.code,
          metadata := some
            { prompt_tokens := some (r.usage.input_tokens + f.usage.input_tokens),
              completion_tokens := some (r.usage.output_tokens + f.usage.output_tokens),
              trace_id := r.traceId, auto_fix_applied := some true } }], .ok ()) := by
  have h6 : optTruthy (some f.code) = true := by simp [optTruthy, h5]
  have htruthy : optTruthy (V f.code).code = true := by rw [h4]; exact h6
  unfold runGenerateLesson saveTail
  simp [h1, h2, h3, h4, htruthy, h6]

/-- Claim C6 witness: invalid first generation `"bad"`, clean corrective
generation, token counts summed. -/
theorem c6_autofix_success_witness :
    runGenerateLesson validateTypeScriptCode
      { gen := .ok { code := "bad", usage := { input_tokens := 1, output_tokens := 2 },
                     traceId := some "t6" },
        fix := .ok { code := goodLessonCode,
                     usage := { input_tokens := 3, output_tokens := 4 }, traceId := none } } =
      ([{ status := .generated, generated_code := some goodLessonCode,
          metadata := some
            { prompt_tokens := some (1 + 3), completion_tokens := some (2 + 4),
              trace_id := some "t6", auto_fix_applied := some true } }], .ok ()) :=
  c6_autofix_success validateTypeScriptCode
    { code := "bad", usage := { input_tokens := 1, output_tokens := 2 }, traceId := some "t6" }
    { code := goodLessonCode, usage := { input_tokens := 3, output_tokens := 4 },
      traceId := none }
    (by decide) (by decide) (by decide) (by decide) (by decide)

/-- Claim C7: when the generation call throws on the first two attempts and
succeeds on the third with code that validates clean, the run ends with a
single record write carrying `status=generated` and `metadata.retry_count=2`. -/
theorem c7_third_attempt_succeeds (V : String → ValidationResult)
    (gen : Nat → Except String GenResult) (elapsed : Nat) (e0 e1 : String) (r : GenResult)
    (h0 : gen 0 = .error e0) (h1 : gen 1 = .error e1) (h2 : gen 2 = .ok r)
    (hv : (V r.code).isValid = true) (hc : optTruthy (V r.code).code = true) :
    runLessonPOST V gen elapsed =
      ([{ status := .generated, generated_code := (V r.code).code,
          metadata := some
            { prompt_tokens := some r.usage.input_tokens,
              completion_tokens := some r.usage.output_tokens,
              generation_time_ms := some elapsed,
              retry_count := some 2,
              trace_id := r.traceId } }], .ok ()) := by
  unfold runLessonPOST
  simp [retryLoop, h0, h1, h2, hv, hc]

/-- The successful third generation attempt of the claim C7 witness. -/
def c7GoodResult : GenResult :=
  { code := goodLessonCode, usage := { input_tokens := 5, output_tokens := 6 },
    traceId := some "t7" }

/-- The attempt-indexed generation outcomes of the claim C7 witness: two
thrown errors, then success. -/
def c7gen : Nat → Except String GenResult
  | 0 => .error "attempt one failed"
  | 1 => .error "attempt two failed"
  | _ => .ok c7GoodResult

/-- Claim C7 witness: the concrete two-failures-then-success run. -/
theorem c7_third_attempt_succeeds_witness :
    runLessonPOST validateTypeScriptCode c7gen 1234 =
      ([{ status := .generated,
          generated_code := (validateTypeScriptCode c7GoodResult.code).code,
          metadata := some
            { prompt_tokens := some c7GoodResult.usage.input_tokens,
              completion_tokens := some c7GoodResult.usage.output_tokens,
              generation_time_ms := some 1234,
              retry_count := some 2,
              trace_id := c7GoodResult.traceId } }], .ok ()) :=
  c7_third_attempt_succeeds validateTypeScriptCode c7gen 1234
    "attempt one failed" "attempt two failed" c7GoodResult rfl rfl rfl
    (by decide) (by decide)

/-- Claim C3 as amended: within a single run of the non-streaming pipeline
(`functions.ts`), status is monotone - either the run performs exactly one
write, the terminal save with `status=generated`, or every write it performs
has `status=failed` - so a terminal status never changes within such a run.
The top-level failure handler, however, writes `failed` unconditionally
rather than checking for an already-terminal record: it duplicates the
branch's `failed` write, and in the streaming variant a failure after the
save step overwrites an already-written `generated` status (see the
counterexample). -/
theorem c3_amended_status_monotone (V : String → ValidationResult) (o : PipelineOutcomes) :
    ((runGenerateLesson V o).1.map (fun w => w.status) = [LessonStatus.generated]) ∨
    (∀ w ∈ (runGenerateLesson V o).1, w.status = LessonStatus.failed) := by
  obtain ⟨gen, fix⟩ := o
  cases gen with
  | error msg =>
      right
      simp [runGenerateLesson, List.forall_mem_cons]
  | ok result =>
      by_cases hb : (!(V result.code).isValid && !(V result.code).errors.isEmpty) = true
      · cases fix with
        | error fixMsg =>
            right
            simp [runGenerateLesson, hb, List.forall_mem_cons]
        | ok fixedResult =>
            by_cases hr :
                ((V fixedResult.code).isValid && optTruthy (V fixedResult.code).code) = true
            · have hv2 : (V fixedResult.code).isValid = true :=
                ((Bool.and_eq_true _ _).mp hr).1
              have hf : optTruthy (V fixedResult.code).code = true :=
                ((Bool.and_eq_true _ _).mp hr).2
              left
              simp [runGenerateLesson, hb, hr, saveTail, hv2, hf]
            · have hr2 :
                  ((V fixedResult.code).isValid && optTruthy (V fixedResult.code).code)
                    = false := Bool.eq_false_iff.mpr hr
              right
              simp [runGenerateLesson, hb, hr2, List.forall_mem_cons]
      · have hb2 : (!(V result.code).isValid && !(V result.code).errors.isEmpty) = false :=
          Bool.eq_false_iff.mpr hb
        by_cases hf : optTruthy (V result.code).code = true
        · left
          simp [runGenerateLesson, hb2, saveTail, hf]
        · have hf2 : optTruthy (V result.code).code = false := Bool.eq_false_iff.mpr hf
          right
          simp [runGenerateLesson, hb2, saveTail, hf2, List.forall_mem_cons]

/-- Concrete outcomes for the claim C3 counterexample: a clean streaming
generation (images disabled), then the Langfuse scoring step throws. -/
def c3Outcomes : StreamingOutcomes :=
  { generateImages := false, images := .error "unused",
    streamGen := .ok { code := goodLessonCode,
                       usage := { input_tokens := 10, output_tokens := 20 },
                       traceId := some "trace-1" },
    fallbackGen := .error "unused", fix := .error "unused",
    scoring := .error "Langfuse scoring failed" }

/-- Claim C3 counterexample: in the streaming pipeline variant a clean
generation is saved with `status=generated`, then the scoring step throws
and the top-level failure handler writes `status=failed` over the
already-terminal record - a subsequent pipeline action changes a terminal
status, contradicting the claim. -/
theorem c3_generated_overwritten_by_failed :
    (runGenerateLessonStreaming validateTypeScriptCode c3Outcomes).1.map
        (fun w => w.status) = [LessonStatus.generated, LessonStatus.failed] ∧
    (runGenerateLessonStreaming validateTypeScriptCode c3Outcomes).2 =
      .error "Langfuse scoring failed" := by
  constructor
  · decide
  · rfl

/-- The terminal lesson record observed by the DB poll in the claim C4
scenario. -/
def c4Record : LessonRecord :=
  { status := .generated, generated_code := some "const x=1" }

/-- The broker-delivered `complete` event of the claim C4 scenario. -/
def c4CompleteEvent : StreamEvent :=
  { type := .complete, lessonId := "j1", code := some "const x=1",
    status := some "generated", timestamp := 5 }

/-- The connection state of the claim C4 scenario: the broker path flushes the
terminal event (setting the local closed-flag), then a poll tick observes the
terminal record before the delayed close has fired. -/
def c4Conn : ConnState :=
  onPollTick "j1" c4Record 7 (onBrokerEvent c4CompleteEvent (connOpen c4Record "j1"))

/-- Claim C4 (code-bug evidence): although the broker path has already flushed
a terminal event and set the connection's closed-flag, the poll path - whose
comment claims "Only send complete if we haven't already" but which checks
neither flag - flushes a second terminal event, so two terminal events reach
the same connection. -/
theorem c4_double_terminal_flush :
    countTerminal c4Conn.flushed = 2 ∧ c4Conn.isClosed = true := by decide

/-- The hook state of the claim C9 scenario after a transport error has
scheduled a reconnect and the component has then been torn down via
`disconnect`. -/
def c9AfterDisconnect : HookState :=
  disconnect (onTransportError (connect {}))

/-- The hook state of the claim C9 scenario after the (uncancelled) reconnect
timer fires. -/
def c9Final : HookState :=
  fireReconnectTimer c9AfterDisconnect

/-- Claim C9 (code-bug evidence): `disconnect` drops the connection but leaves
the reconnect timer pending (the hook stores no handle to cancel), so when
the timer fires a new connection is opened after the explicit close -
contradicting the claim that no reconnection attempt fires after
`disconnect`. -/
theorem c9_reconnect_fires_after_disconnect :
    c9AfterDisconnect.connected = false ∧ c9AfterDisconnect.pendingReconnect = true ∧
    c9Final.connected = true := by decide
